import Mathlib

/-!
Shallow embedding of `backend/api/quivr_api/modules/sync/repository/sync_user.py`
(class `SyncUserRepository`).

The database table `syncs_user` is modelled as a `List SyncRow`; every repository
method becomes a pure function over that list (methods that mutate the table
return the new list). Provider SDK clients (Google Drive, Azure, Dropbox,
Notion, GitHub) are opaque in the source, so they are parameters of the
dispatcher, collected in a `Providers` structure. `json.dumps` on a state dict
is modelled by `json_dumps` over an ordered association list: Python dicts are
insertion-ordered and `json.dumps` is called without `sort_keys`, so the
serialization depends on the key order of the payload.
-/

namespace SyncUserRepo

/-- A JSON-object state payload as Python sees it: key/value pairs in
insertion order (values simplified to strings; only ordering and equality of
the serialized form matter to the repository). -/
abbrev StateDict := List (String × String)

/-- One `"key": "value"` fragment of the serialized form. -/
def dumpsPair (p : String × String) : String :=
  "\"" ++ p.1 ++ "\": \"" ++ p.2 ++ "\""

/-- `json.dumps(state)` with Python defaults: no `sort_keys`, entries emitted
in the dict's insertion order. -/
def json_dumps (state : StateDict) : String :=
  "\x7b" ++ String.intercalate ", " (state.map dumpsPair) ++ "\x7d"

/-- A row of the `syncs_user` table (`user_id` is the UUID rendered as text,
`credentials` is the opaque auth payload, `state` is the serialized state
string stored in the state column). -/
structure SyncRow where
  id : Nat
  user_id : String
  provider : String
  credentials : String
  state : String
  email : Option String
  deriving DecidableEq, Repr

/-- `SyncsUserInput`: the caller-supplied fields of `create_sync_user`
(`model_dump(exclude_none=True, exclude_unset=True)`; an unset `email` is
omitted and the column stays null). -/
structure SyncsUserInput where
  user_id : String
  provider : String
  credentials : String
  state : StateDict
  email : Option String
  deriving DecidableEq, Repr

/-- `SyncUserUpdateInput`: the patch fields of `update_sync_user`
(`model_dump()` sends every field). -/
structure SyncUserUpdateInput where
  credentials : String
  state : StateDict
  email : String
  deriving DecidableEq, Repr

/-- `create_sync_user`: inserts a row built from the input; the store
generates the fresh `id`. Returns the new table and the inserted row
(`response.data[0]`). -/
def create_sync_user (db : List SyncRow) (newId : Nat) (input : SyncsUserInput) :
    List SyncRow × SyncRow :=
  let row : SyncRow :=
    { id := newId
      user_id := input.user_id
      provider := input.provider
      credentials := input.credentials
      state := json_dumps input.state
      email := input.email }
  (db ++ [row], row)

/-- `get_sync_user_by_id`: `select * where id = sync_id`, first row or `None`. -/
def get_sync_user_by_id (db : List SyncRow) (sync_id : Nat) : Option SyncRow :=
  match db.filter (fun r => r.id == sync_id) with
  | [] => none
  | r :: _ => some r

/-- `get_syncs_user`: `select * where user_id = user_id`, additionally filtered
by `id` only when `sync_user_id` is truthy (`if sync_user_id:` — both `None`
and `0` skip the id filter); returns `[]` when nothing matches. -/
def get_syncs_user (db : List SyncRow) (user_id : String)
    (sync_user_id : Option Nat) : List SyncRow :=
  let base := db.filter (fun r => r.user_id == user_id)
  match sync_user_id with
  | none => base
  | some n => if n != 0 then base.filter (fun r => r.id == n) else base

/-- `get_sync_user_by_state`: serializes the payload with `json.dumps` and
matches the state column exactly; first row or `None`. -/
def get_sync_user_by_state (db : List SyncRow) (state : StateDict) :
    Option SyncRow :=
  match db.filter (fun r => r.state == json_dumps state) with
  | [] => none
  | r :: _ => some r

/-- `delete_sync_user`: `delete where id = sync_id and user_id = user_id`. -/
def delete_sync_user (db : List SyncRow) (sync_id : Nat) (user_id : String) :
    List SyncRow :=
  db.filter (fun r => !(r.id == sync_id && r.user_id == user_id))

/-- The per-row effect of `update_sync_user`: rows matching both the owner and
the serialized state receive the patch columns, all other rows are untouched. -/
def updateRow (owner : String) (st : StateDict) (p : SyncUserUpdateInput)
    (r : SyncRow) : SyncRow :=
  if r.user_id == owner && r.state == json_dumps st then
    { r with
      credentials := p.credentials
      state := json_dumps p.state
      email := some p.email }
  else r

/-- `update_sync_user`: `update <patch> where user_id = owner and state =
json.dumps(state)`; a table-wide map, silent when no row matches. -/
def update_sync_user (db : List SyncRow) (sync_user_id : String)
    (state : StateDict) (p : SyncUserUpdateInput) : List SyncRow :=
  db.map (updateRow sync_user_id state p)

/-- `get_all_notion_user_syncs`: `select * where provider = "Notion"` — a
case-sensitive column match; returns `[]` when nothing matches. -/
def get_all_notion_user_syncs (db : List SyncRow) : List SyncRow :=
  db.filter (fun r => r.provider == "Notion")

/-- The five provider SDK clients used by the dispatcher, opaque to this
layer. `F` is the provider file type (`SyncFile`), `N` the Notion service
context type (`SyncNotionService`). -/
structure Providers (F N : Type) where
  googleGetFiles : String → Option String → List F
  azureGetFiles : String → Option String → Bool → List F
  dropboxGetFiles : String → String → Bool → List F
  notionAgetFiles : N → String → String → Bool → List F
  githubGetFiles : String → String → Bool → List F

/-- Python `str.lower()` (ASCII case folding, character by character) as used
on the stored provider name at dispatch time. -/
def pyLower (s : String) : String :=
  String.mk (s.data.map Char.toLower)

/-- The dispatcher's result: Python `None`, the `{"files": [...]}` mapping, or
the literal string `"No sync found"`. -/
inductive DispatchResult (F : Type) where
  | noRecord : DispatchResult F
  | files : List F → DispatchResult F
  | noSyncFound : DispatchResult F
  deriving DecidableEq, Repr

/-- `folder_id if folder_id else ""` — Python truthiness on `str | None`
(both `None` and the empty string fall back to `""`). -/
def strOrEmpty : Option String → String
  | none => ""
  | some s => if s == "" then "" else s

/-- The body of `get_files_folder_user_sync` after the `get_syncs_user`
lookup: take the first row, lower-case its provider and branch; the Notion
branch raises `ValueError` when no service context was supplied. -/
def dispatchRows {F N : Type} (P : Providers F N) (rows : List SyncRow)
    (notion_service : Option N) (folder_id : Option String) (recursive : Bool) :
    Except String (DispatchResult F) :=
  match rows with
  | [] => Except.ok DispatchResult.noRecord
  | sync_user :: _ =>
    let provider := pyLower sync_user.provider
    if provider == "google" then
      Except.ok (DispatchResult.files (P.googleGetFiles sync_user.credentials folder_id))
    else if provider == "azure" then
      Except.ok (DispatchResult.files
        (P.azureGetFiles sync_user.credentials folder_id recursive))
    else if provider == "dropbox" then
      Except.ok (DispatchResult.files
        (P.dropboxGetFiles sync_user.credentials (strOrEmpty folder_id) recursive))
    else if provider == "notion" then
      match notion_service with
      | none => Except.error "provider notion but notion_service is None"
      | some ns =>
        Except.ok (DispatchResult.files
          (P.notionAgetFiles ns sync_user.credentials (strOrEmpty folder_id) recursive))
    else if provider == "github" then
      Except.ok (DispatchResult.files
        (P.githubGetFiles sync_user.credentials (strOrEmpty folder_id) recursive))
    else
      Except.ok DispatchResult.noSyncFound

/-- `get_files_folder_user_sync`: look the record up via `get_syncs_user`
(forwarding the active sync id), then dispatch on its provider. -/
def get_files_folder_user_sync {F N : Type} (P : Providers F N)
    (db : List SyncRow) (sync_active_id : Nat) (user_id : String)
    (notion_service : Option N) (folder_id : Option String) (recursive : Bool) :
    Except String (DispatchResult F) :=
  dispatchRows P (get_syncs_user db user_id (some sync_active_id))
    notion_service folder_id recursive

/-! Concrete fixtures used to evaluate the model on explicit inputs. -/

/-- A two-key state payload in insertion order `a`, `b`. -/
def st_ab : StateDict := [("a", "1"), ("b", "2")]

/-- The same key/value pairs in insertion order `b`, `a`. -/
def st_ba : StateDict := [("b", "2"), ("a", "1")]

/-- A row whose state column was written from the `a`-first payload. -/
def row_ab : SyncRow :=
  { id := 1
    user_id := "u"
    provider := "Google"
    credentials := "c"
    state := json_dumps st_ab
    email := none }

/-- A one-row table holding `row_ab`. -/
def db_state : List SyncRow := [row_ab]

/-- A row owned by user `v` (a different owner than `u`). -/
def row_v : SyncRow :=
  { id := 1
    user_id := "v"
    provider := "Azure"
    credentials := "vc"
    state := "vs"
    email := none }

/-- A one-row table holding `row_v`. -/
def db_owner : List SyncRow := [row_v]

/-- A concrete update patch. -/
def patch0 : SyncUserUpdateInput :=
  { credentials := "newcred"
    state := st_ba
    email := "new-mail" }

/-- A concrete creation input. -/
def input0 : SyncsUserInput :=
  { user_id := "u"
    provider := "Dropbox"
    credentials := "ic"
    state := st_ab
    email := some "mail" }

/-- First of two rows owned by `u`. -/
def row_u1 : SyncRow :=
  { id := 1
    user_id := "u"
    provider := "Google"
    credentials := "c1"
    state := "s1"
    email := none }

/-- Second of two rows owned by `u`. -/
def row_u2 : SyncRow :=
  { id := 2
    user_id := "u"
    provider := "Azure"
    credentials := "c2"
    state := "s2"
    email := none }

/-- A table with two rows owned by the same user `u`. -/
def db_two : List SyncRow := [row_u1, row_u2]

/-- A row whose provider is outside the dispatcher's enumerated set. -/
def row_unknown : SyncRow :=
  { id := 3
    user_id := "u"
    provider := "Unknown"
    credentials := "uc"
    state := "us"
    email := none }

/-- A one-row table holding `row_unknown`. -/
def db_unknown : List SyncRow := [row_unknown]

/-- A row with provider `Notion`. -/
def row_notion : SyncRow :=
  { id := 4
    user_id := "u"
    provider := "Notion"
    credentials := "nc"
    state := "ns"
    email := none }

/-- A one-row table holding `row_notion`. -/
def db_notion : List SyncRow := [row_notion]

/-- A row with provider `gOoGle` (mixed casing). -/
def row_google : SyncRow :=
  { id := 9
    user_id := "u"
    provider := "gOoGle"
    credentials := "gc"
    state := "gs"
    email := none }

/-- A one-row table holding `row_google`. -/
def db_google : List SyncRow := [row_google]

/-- A row stored with the lower-cased provider string `notion`. -/
def row_lc_notion : SyncRow :=
  { id := 6
    user_id := "u"
    provider := "notion"
    credentials := "lc"
    state := "ls"
    email := none }

/-- A one-row table holding `row_lc_notion`. -/
def db_lc_notion : List SyncRow := [row_lc_notion]

/-- A concrete provider-client bundle over `Nat` files and a `Unit` Notion
service context, returning distinct file lists per provider. -/
def P0 : Providers Nat Unit :=
  { googleGetFiles := fun _ _ => [1]
    azureGetFiles := fun _ _ _ => [2]
    dropboxGetFiles := fun _ _ _ => [3]
    notionAgetFiles := fun _ _ _ _ => [4]
    githubGetFiles := fun _ _ _ => [5] }

/-! Helper lemmas. -/

/-- Applying the same per-row update twice equals applying it once: the patch
writes constant column values, and a patched row either still matches the
predicate (and is rewritten to the same values) or no longer matches. -/
theorem updateRow_idem (o : String) (st : StateDict) (p : SyncUserUpdateInput)
    (r : SyncRow) : updateRow o st p (updateRow o st p r) = updateRow o st p r := by
  by_cases h1 : (r.user_id == o && r.state == json_dumps st) = true
  · have hx : updateRow o st p r =
        { r with
          credentials := p.credentials
          state := json_dumps p.state
          email := some p.email } := by
      unfold updateRow
      rw [if_pos h1]
    rw [hx]
    unfold updateRow
    by_cases h2 : ((json_dumps p.state : String) == json_dumps st) = true
    · rw [if_pos]
      simp only [Bool.and_eq_true] at h1 ⊢
      exact ⟨h1.1, h2⟩
    · rw [if_neg]
      simp only [Bool.and_eq_true]
      intro hcon
      exact h2 hcon.2
  · have hx : updateRow o st p r = r := by
      unfold updateRow
      rw [if_neg h1]
    rw [hx, hx]

/-- A list whose mapped ids are pairwise distinct keeps at most one element
when filtered by an id equality. -/
theorem length_filter_id_le_one (l : List SyncRow) (n : Nat)
    (h : (l.map SyncRow.id).Nodup) :
    (l.filter (fun r => r.id == n)).length ≤ 1 := by
  induction l with
  | nil => simp
  | cons a t ih =>
    rw [List.map_cons, List.nodup_cons] at h
    by_cases ha : (a.id == n) = true
    · have hnil : t.filter (fun r => r.id == n) = [] := by
        rw [List.filter_eq_nil_iff]
        intro x hx hxn
        apply h.1
        have hxa : x.id = a.id := by
          have hxn1 : x.id = n := by simpa using hxn
          have han : a.id = n := by simpa using ha
          rw [hxn1, han]
        rw [← hxa]
        exact List.mem_map_of_mem SyncRow.id hx
      rw [List.filter_cons]
      simp [ha, hnil]
    · rw [List.filter_cons]
      simp only [ha, if_false, Bool.false_eq_true]
      exact ih h.2

/-! Claim theorems. -/

/-- C1 (counterexample): `get_sync_user_by_state` does not use a canonical
serialization. The payloads `st_ab` and `st_ba` hold the same key/value pairs
in different orders (they are permutations of one another), yet the `a`-first
payload finds the stored row while the `b`-first payload finds nothing,
because `json.dumps` without `sort_keys` serializes them differently. -/
theorem getByState_key_order_counterexample :
    List.Perm st_ab st_ba ∧
    get_sync_user_by_state db_state st_ab = some row_ab ∧
    get_sync_user_by_state db_state st_ba = none := by
  refine ⟨by decide, by decide, by decide⟩

/-- C1 (amended): `get_sync_user_by_state` compares only the serialized form
produced by insertion-order `json.dumps`: two payloads with equal
serializations always return the same record, and any returned record is a
stored row whose state column equals the query payload's serialization.
Structurally-equal payloads with a different key order serialize differently
and need not match. -/
theorem getByState_matches_by_serialized_state (db : List SyncRow)
    (s1 s2 : StateDict) (h : json_dumps s1 = json_dumps s2) :
    get_sync_user_by_state db s1 = get_sync_user_by_state db s2 ∧
    (∀ r : SyncRow, get_sync_user_by_state db s1 = some r →
      r ∈ db ∧ r.state = json_dumps s1) := by
  constructor
  · unfold get_sync_user_by_state
    rw [h]
  · intro r hr
    unfold get_sync_user_by_state at hr
    split at hr
    · exact absurd hr (by simp)
    · next a t heq =>
      have ha : a ∈ db.filter (fun x => x.state == json_dumps s1) := by
        rw [heq]
        exact List.mem_cons_self a t
      rw [List.mem_filter] at ha
      have har : a = r := by injection hr
      rw [← har]
      exact ⟨ha.1, by simpa using ha.2⟩

/-- C1 witness: the amended theorem evaluated on the one-row table at the
`a`-first payload. -/
theorem getByState_matches_witness :
    row_ab ∈ db_state ∧ row_ab.state = json_dumps st_ab :=
  (getByState_matches_by_serialized_state db_state st_ab st_ab rfl).2
    row_ab (by decide)

/-- C2: ownership is part of the query predicate of both mutators. A stored
row whose owner differs from the supplied owner survives `delete_sync_user`
(even when its id matches the supplied id) and passes through
`update_sync_user` untouched (even when its state column matches the
serialized state). -/
theorem delete_update_owner_isolation (db : List SyncRow) (sync_id : Nat)
    (ownerA : String) (st : StateDict) (p : SyncUserUpdateInput) (r : SyncRow)
    (hmem : r ∈ db) (hown : r.user_id ≠ ownerA) :
    r ∈ delete_sync_user db sync_id ownerA ∧
    updateRow ownerA st p r = r ∧
    r ∈ update_sync_user db ownerA st p := by
  have hrow : updateRow ownerA st p r = r := by
    have hcond : ¬((r.user_id == ownerA && r.state == json_dumps st) = true) := by
      simp only [Bool.and_eq_true, beq_iff_eq]
      intro hcon
      exact hown hcon.1
    unfold updateRow
    rw [if_neg hcond]
  refine ⟨?_, hrow, ?_⟩
  · unfold delete_sync_user
    rw [List.mem_filter]
    refine ⟨hmem, ?_⟩
    simp [hown]
  · unfold update_sync_user
    rw [List.mem_map]
    exact ⟨r, hmem, hrow⟩

/-- C2 witness: `row_v` (owner `v`, id 1) survives `delete_sync_user` with
matching id 1 but owner `u`, and is untouched by `update_sync_user` for
owner `u`. -/
theorem delete_update_owner_isolation_witness :
    row_v ∈ delete_sync_user db_owner 1 "u" ∧
    updateRow "u" st_ab patch0 row_v = row_v ∧
    row_v ∈ update_sync_user db_owner "u" st_ab patch0 :=
  delete_update_owner_isolation db_owner 1 "u" st_ab patch0 row_v
    (by decide) (by decide)

/-- C3: the dispatcher's two not-found outcomes. An empty owner/id lookup
yields `Except.ok noRecord` (Python `None`); a found record whose lower-cased
provider is none of google/azure/dropbox/notion/github yields
`Except.ok noSyncFound` (the string "No sync found"). Both are `ok` values —
not exceptions — and are distinct from each other and from any populated
files result. -/
theorem dispatch_not_found_outcomes {F N : Type} (P : Providers F N)
    (db : List SyncRow) (said : Nat) (u : String) (ns : Option N)
    (fid : Option String) (rcv : Bool) :
    (get_syncs_user db u (some said) = [] →
      get_files_folder_user_sync P db said u ns fid rcv =
        Except.ok DispatchResult.noRecord) ∧
    (∀ su rest, get_syncs_user db u (some said) = su :: rest →
      pyLower su.provider ≠ "google" → pyLower su.provider ≠ "azure" →
      pyLower su.provider ≠ "dropbox" → pyLower su.provider ≠ "notion" →
      pyLower su.provider ≠ "github" →
      get_files_folder_user_sync P db said u ns fid rcv =
        Except.ok DispatchResult.noSyncFound) ∧
    (Except.ok DispatchResult.noRecord ≠
      (Except.ok DispatchResult.noSyncFound : Except String (DispatchResult F))) ∧
    (∀ fs : List F,
      Except.ok DispatchResult.noRecord ≠
        (Except.ok (DispatchResult.files fs) : Except String (DispatchResult F)) ∧
      (Except.ok DispatchResult.noSyncFound :
        Except String (DispatchResult F)) ≠ Except.ok (DispatchResult.files fs)) := by
  refine ⟨?_, ?_, ?_, ?_⟩
  · intro h
    unfold get_files_folder_user_sync
    rw [h]
    rfl
  · intro su rest h hg ha hd hn hh
    unfold get_files_folder_user_sync
    rw [h]
    unfold dispatchRows
    simp [hg, ha, hd, hn, hh]
  · simp
  · intro fs
    constructor <;> simp

/-- C3 witness: an empty table yields `noRecord`; a table whose only row has
provider `Unknown` yields `noSyncFound`. -/
theorem dispatch_not_found_outcomes_witness :
    get_files_folder_user_sync P0 ([] : List SyncRow) 5 "u"
      (none : Option Unit) none false = Except.ok DispatchResult.noRecord ∧
    get_files_folder_user_sync P0 db_unknown 3 "u"
      (none : Option Unit) none false = Except.ok DispatchResult.noSyncFound := by
  refine ⟨?_, ?_⟩
  · exact (dispatch_not_found_outcomes P0 [] 5 "u" none none false).1 (by decide)
  · exact (dispatch_not_found_outcomes P0 db_unknown 3 "u" none none false).2.1
      row_unknown [] (by decide) (by decide) (by decide) (by decide) (by decide)
      (by decide)

/-- C4: when the matched record's provider lower-cases to `notion` and no
Notion service context is supplied, the dispatcher raises `ValueError`
(modelled as `Except.error`); with a context it returns the files produced by
the Notion client from the stored credentials, the folder-id-or-empty-string,
and the recursive flag. -/
theorem dispatch_notion_requires_service {F N : Type} (P : Providers F N)
    (db : List SyncRow) (said : Nat) (u : String) (fid : Option String)
    (rcv : Bool) (su : SyncRow) (rest : List SyncRow)
    (h : get_syncs_user db u (some said) = su :: rest)
    (hp : pyLower su.provider = "notion") :
    get_files_folder_user_sync P db said u (none : Option N) fid rcv =
      Except.error "provider notion but notion_service is None" ∧
    ∀ ns : N, get_files_folder_user_sync P db said u (some ns) fid rcv =
      Except.ok (DispatchResult.files
        (P.notionAgetFiles ns su.credentials (strOrEmpty fid) rcv)) := by
  constructor
  · unfold get_files_folder_user_sync
    rw [h]
    unfold dispatchRows
    simp only [hp]
    simp
  · intro ns
    unfold get_files_folder_user_sync
    rw [h]
    unfold dispatchRows
    simp only [hp]
    simp

/-- C4 witness: the one-row `Notion` table fails with `ValueError` when the
context is absent and lists via the Notion client when it is supplied. -/
theorem dispatch_notion_requires_service_witness :
    get_files_folder_user_sync P0 db_notion 4 "u" (none : Option Unit)
      none false = Except.error "provider notion but notion_service is None" ∧
    get_files_folder_user_sync P0 db_notion 4 "u" (some ()) none false =
      Except.ok (DispatchResult.files
        (P0.notionAgetFiles () row_notion.credentials (strOrEmpty none) false)) := by
  have h := dispatch_notion_requires_service P0 db_notion 4 "u" none false
    row_notion [] (by decide) (by decide)
  exact ⟨h.1, h.2 ()⟩

/-- C5: when the matched record's provider lower-cases to `google` (any
casing), the dispatcher returns the files mapping produced by the Google
client from the stored credentials and the caller's folder id, both passed
through unchanged (the folder id is not defaulted to the empty string). -/
theorem dispatch_google_passthrough {F N : Type} (P : Providers F N)
    (db : List SyncRow) (said : Nat) (u : String) (ns : Option N)
    (fid : Option String) (rcv : Bool) (su : SyncRow) (rest : List SyncRow)
    (h : get_syncs_user db u (some said) = su :: rest)
    (hp : pyLower su.provider = "google") :
    get_files_folder_user_sync P db said u ns fid rcv =
      Except.ok (DispatchResult.files (P.googleGetFiles su.credentials fid)) := by
  unfold get_files_folder_user_sync
  rw [h]
  unfold dispatchRows
  simp only [hp]
  simp

/-- C5 witness: a row stored with provider `gOoGle` dispatches to the Google
client with its credentials and the requested folder id. -/
theorem dispatch_google_passthrough_witness :
    get_files_folder_user_sync P0 db_google 9 "u" (none : Option Unit)
      (some "folder") false =
      Except.ok (DispatchResult.files
        (P0.googleGetFiles row_google.credentials (some "folder"))) :=
  dispatch_google_passthrough P0 db_google 9 "u" none (some "folder") false
    row_google [] (by decide) (by decide)

/-- C6: `create_sync_user` followed by `get_sync_user_by_id` with the id of
the returned record finds exactly that record (the stored id is fresh), and
the returned record carries every supplied field: owner, provider,
credentials, the serialized state payload, and the email. -/
theorem create_then_getById_roundtrip (db : List SyncRow)
    (input : SyncsUserInput) (newId : Nat)
    (hfresh : ∀ r ∈ db, r.id ≠ newId) :
    get_sync_user_by_id (create_sync_user db newId input).1
        (create_sync_user db newId input).2.id =
      some (create_sync_user db newId input).2 ∧
    (create_sync_user db newId input).2.user_id = input.user_id ∧
    (create_sync_user db newId input).2.provider = input.provider ∧
    (create_sync_user db newId input).2.credentials = input.credentials ∧
    (create_sync_user db newId input).2.state = json_dumps input.state ∧
    (create_sync_user db newId input).2.email = input.email := by
  refine ⟨?_, rfl, rfl, rfl, rfl, rfl⟩
  unfold create_sync_user get_sync_user_by_id
  simp only [List.filter_append]
  have hnil : db.filter (fun r => r.id == newId) = [] := by
    rw [List.filter_eq_nil_iff]
    intro r hr
    simpa using hfresh r hr
  rw [hnil]
  simp

/-- C6 witness: creating from `input0` in the two-row table under fresh id 7
and reading id 7 back returns the created record. -/
theorem create_then_getById_roundtrip_witness :
    get_sync_user_by_id (create_sync_user db_two 7 input0).1
        (create_sync_user db_two 7 input0).2.id =
      some (create_sync_user db_two 7 input0).2 :=
  (create_then_getById_roundtrip db_two input0 7 (by decide)).1

/-- C7: `update_sync_user` applied twice with the same owner, state, and
patch equals a single application, and when no row matches both the owner
and the serialized state the call leaves the table unchanged (a silent
no-op — the function is total and surfaces no error). -/
theorem update_idempotent_and_silent_noop (db : List SyncRow) (owner : String)
    (st : StateDict) (p : SyncUserUpdateInput) :
    update_sync_user (update_sync_user db owner st p) owner st p =
      update_sync_user db owner st p ∧
    ((∀ r ∈ db, ¬(r.user_id = owner ∧ r.state = json_dumps st)) →
      update_sync_user db owner st p = db) := by
  constructor
  · unfold update_sync_user
    rw [List.map_map]
    apply List.map_congr_left
    intro r _
    exact updateRow_idem owner st p r
  · intro hnone
    unfold update_sync_user
    have hid : ∀ r ∈ db, updateRow owner st p r = r := by
      intro r hr
      have hcond : ¬((r.user_id == owner && r.state == json_dumps st) = true) := by
        simp only [Bool.and_eq_true, beq_iff_eq]
        exact hnone r hr
      unfold updateRow
      rw [if_neg hcond]
    rw [List.map_congr_left hid]
    simp

/-- C7 witness: idempotence evaluated on the one-row table whose row matches
owner `u` and payload `st_ab`. -/
theorem update_idempotent_witness :
    update_sync_user (update_sync_user db_state "u" st_ab patch0) "u" st_ab
        patch0 =
      update_sync_user db_state "u" st_ab patch0 :=
  (update_idempotent_and_silent_noop db_state "u" st_ab patch0).1

/-- C8 (counterexample): `get_syncs_user` called with sync-user id 0 does not
narrow to a record with id 0 — the id is falsy, the filter is skipped, and
both of owner `u`'s rows come back (neither of which has id 0). -/
theorem listByOwner_zero_id_counterexample :
    get_syncs_user db_two "u" (some 0) = [row_u1, row_u2] ∧
    ¬((get_syncs_user db_two "u" (some 0)).length ≤ 1) ∧
    row_u1.id ≠ 0 := by
  refine ⟨by decide, by decide, by decide⟩

/-- C8 (amended): with table ids pairwise distinct (the store generates
unique ids) and a nonzero requested id, `get_syncs_user` with no sync-user id
returns exactly the owner's rows; with id `idX ≠ 0` it returns at most one
record, matching both `idX` and the owner; and when the owner has no rows it
returns the empty list in both modes rather than failing. -/
theorem listByOwner_filters (db : List SyncRow) (owner : String) (idX : Nat)
    (hnodup : (db.map SyncRow.id).Nodup) (hx : idX ≠ 0) :
    (∀ r : SyncRow, r ∈ get_syncs_user db owner none ↔
      r ∈ db ∧ r.user_id = owner) ∧
    (get_syncs_user db owner (some idX)).length ≤ 1 ∧
    (∀ r ∈ get_syncs_user db owner (some idX),
      r.id = idX ∧ r.user_id = owner) ∧
    ((∀ r ∈ db, r.user_id ≠ owner) →
      get_syncs_user db owner none = [] ∧
      get_syncs_user db owner (some idX) = []) := by
  have hsome : get_syncs_user db owner (some idX) =
      (db.filter (fun r => r.user_id == owner)).filter (fun r => r.id == idX) := by
    unfold get_syncs_user
    have hb : (idX != 0) = true := by simpa using hx
    simp [hb]
  have hbase : ∀ r : SyncRow, r ∈ get_syncs_user db owner none ↔
      r ∈ db ∧ r.user_id = owner := by
    intro r
    unfold get_syncs_user
    rw [List.mem_filter]
    simp
  refine ⟨hbase, ?_, ?_, ?_⟩
  · rw [hsome]
    apply length_filter_id_le_one
    exact List.Nodup.sublist
      (List.Sublist.map SyncRow.id (List.filter_sublist db)) hnodup
  · intro r hr
    rw [hsome, List.mem_filter, List.mem_filter] at hr
    exact ⟨by simpa using hr.2, by simpa using hr.1.2⟩
  · intro hno
    have hnil : db.filter (fun r => r.user_id == owner) = [] := by
      rw [List.filter_eq_nil_iff]
      intro x hx2
      simpa using hno x hx2
    constructor
    · unfold get_syncs_user
      exact hnil
    · rw [hsome, hnil]
      rfl

/-- C8 witness: on the two-row table with distinct ids, the lookup for owner
`u` narrowed to id 1 returns at most one record. -/
theorem listByOwner_filters_witness :
    (get_syncs_user db_two "u" (some 1)).length ≤ 1 :=
  (listByOwner_filters db_two "u" 1 (by decide) (by decide)).2.1

/-- C9: `get_all_notion_user_syncs` returns exactly the rows whose provider
column equals the string `Notion` under case-sensitive comparison — a row
stored with provider `notion` is never returned — and it yields the empty
list when no row matches. -/
theorem listByProvider_notion_case_sensitive (db : List SyncRow) (r : SyncRow) :
    (r ∈ get_all_notion_user_syncs db ↔ r ∈ db ∧ r.provider = "Notion") ∧
    (r.provider = "notion" → r ∉ get_all_notion_user_syncs db) ∧
    ((∀ x ∈ db, x.provider ≠ "Notion") → get_all_notion_user_syncs db = []) := by
  have hmem : r ∈ get_all_notion_user_syncs db ↔
      r ∈ db ∧ r.provider = "Notion" := by
    unfold get_all_notion_user_syncs
    rw [List.mem_filter]
    simp
  refine ⟨hmem, ?_, ?_⟩
  · intro hlc hin
    have hcap := (hmem.mp hin).2
    rw [hlc] at hcap
    exact absurd hcap (by decide)
  · intro hno
    unfold get_all_notion_user_syncs
    rw [List.filter_eq_nil_iff]
    intro x hx
    simpa using hno x hx

/-- C9 witness: the row stored with lower-case provider `notion` is not
returned by the provider listing. -/
theorem listByProvider_notion_witness :
    row_lc_notion ∉ get_all_notion_user_syncs db_lc_notion :=
  (listByProvider_notion_case_sensitive db_lc_notion row_lc_notion).2.1 rfl

/-- C10: `get_syncs_user` with sync-user id 0 behaves exactly like the call
with no sync-user id (the falsy id skips the id filter and all of the
owner's rows are returned), and the dispatcher at active-sync id 0 is
computed from that unfiltered lookup. -/
theorem zero_sync_id_skips_filter {F N : Type} (P : Providers F N)
    (db : List SyncRow) (u : String) (ns : Option N) (fid : Option String)
    (rcv : Bool) :
    get_syncs_user db u (some 0) = get_syncs_user db u none ∧
    get_files_folder_user_sync P db 0 u ns fid rcv =
      dispatchRows P (get_syncs_user db u none) ns fid rcv := by
  have h : get_syncs_user db u (some 0) = get_syncs_user db u none := by
    unfold get_syncs_user
    simp
  exact ⟨h, by rw [get_files_folder_user_sync, h]⟩

/-- C10 witness: on the two-row table, the id-0 lookup equals the
no-id lookup. -/
theorem zero_sync_id_skips_filter_witness :
    get_syncs_user db_two "u" (some 0) = get_syncs_user db_two "u" none :=
  (zero_sync_id_skips_filter P0 db_two "u" none none false).1

end SyncUserRepo
